import Mathlib

/-!
# Verification of `cmdnotify`

Shallow embedding of `cmdnotify.c` (the current variant: privilege check,
`prog_exists` precondition, `execv`-based runner with `WEXITSTATUS`).

The program's interactions with the operating system are made explicit
parameters:
* `euid : Nat` — the result of `geteuid()`;
* `fs : String → Bool` — the file-existence oracle, `fs p = true` iff
  `access(p, F_OK) == 0`;
* `exec : String → List (Option String) → Nat` — the kernel's behaviour for a
  child created with `execv(path, argv)`: the raw wait status that `waitpid`
  reports for that child (for a child that terminates normally with exit code
  `N`, the raw status is `256 * N`).

Strings are modelled by Lean `String` (`C` strings up to their NUL
terminator); the NUL sentinel slot of the `execv` argument vector is modelled
explicitly as the `none` entry of a `List (Option String)`.  `malloc`-backed
buffers are modelled as starting empty.
-/

/-- `SUCCESS_SUMMARY` of cmdnotify.c. -/
def SUCCESS_SUMMARY : String := "Success"

/-- `FAILURE_SUMMARY` of cmdnotify.c. -/
def FAILURE_SUMMARY : String := "Error"

/-- `DEFAULT_BINDIR_PREFIX` of cmdnotify.c: the fixed directory all target
programs are resolved under. -/
def default_bindir : String := "/bin/"

/-- `NOTIFY_SEND_BINLOC` of cmdnotify.c: the fixed path of the notifier. -/
def notify_send_binloc : String := "/bin/notify-send"

/-- C `strcat` on the character lists held by NUL-terminated buffers:
appends `src` after the existing contents of `dest`. -/
def strcat (dest src : List Char) : List Char := dest ++ src

/-- `create_progpath` of cmdnotify.c: starting from a freshly allocated
(empty) buffer, `strcat` the fixed directory, then `strcat` the program
name. -/
def create_progpath (progname : String) : String :=
  String.mk (strcat (strcat [] default_bindir.data) progname.data)

/-- `prog_exists` of cmdnotify.c: resolve the path and probe it with
`access(path, F_OK)`. -/
def prog_exists (fs : String → Bool) (progname : String) : Bool :=
  fs (create_progpath progname)

/-- `WEXITSTATUS` of a raw wait status: `(status & 0xff00) >> 8`. -/
def wexitstatus (status : Nat) : Nat := status / 256 % 256

/-- `run_prog` of cmdnotify.c: build the resolved path, `execv` it in a child
with the given argument vector, wait, and return `WEXITSTATUS` of the raw
status.  The pair `(progpath, argv)` records the exact `execv` invocation. -/
def run_prog (exec : String → List (Option String) → Nat)
    (progname : String) (argv : List (Option String)) :
    Nat × (String × List (Option String)) :=
  let progpath := create_progpath progname
  (wexitstatus (exec progpath argv), (progpath, argv))

/-- `MAX_BODY_BUFSIZE` of `notify_status`. -/
def MAX_BODY_BUFSIZE : Nat := 256

/-- `snprintf(dst, n, ...)` keeps at most `n - 1` characters of the formatted
output (the rest of the buffer is the NUL terminator). -/
def snprintf_out (n : Nat) (s : String) : String :=
  String.mk (s.data.take (n - 1))

/-- The full formatted text `"'%s' returned %d"` of `notify_status`, before
`snprintf`'s size limit is applied. -/
def notify_body_fmt (status : Int) (cmd : String) : String :=
  "'" ++ cmd ++ "' returned " ++ toString status

/-- `notify_status` of cmdnotify.c: choose the summary label by the status,
format the body with `snprintf(body, MAX_BODY_BUFSIZE, "'%s' returned %d",
cmd, status)`, and hand `(summary, body)` to the notifier. -/
def notify_status (status : Int) (cmd : String) : String × String :=
  let summary := if status = 0 then SUCCESS_SUMMARY else FAILURE_SUMMARY
  let body := snprintf_out MAX_BODY_BUFSIZE (notify_body_fmt status cmd)
  (summary, body)

/-- The loop of `main` that copies `argv[2..argc-1]` into the argument
buffer, one entry at a time, after `argbuf[0] = argv[1]`. -/
def argbuf_loop : List (Option String) → List String → List (Option String)
  | buf, [] => buf
  | buf, a :: rest => argbuf_loop (buf ++ [some a]) rest

/-- The argument vector `main` hands to `run_prog`: `argv[1]` at index 0,
then the loop over the remaining arguments, then the terminating NULL. -/
def main_argbuf (argv : List String) : List (Option String) :=
  argbuf_loop [some (argv.getD 1 "")] (argv.drop 2) ++ [none]

/-- Everything one invocation of the tool does that the outside world can
observe: its exit code, its stderr diagnostics, the `execv` of the target (if
any), and the `(summary, body)` handed to the notifier (if any). -/
structure MainResult where
  exit : Nat
  stderrLines : List String
  execCall : Option (String × List (Option String))
  notifyCall : Option (String × String)

/-- `main` of cmdnotify.c: validate `argc`, refuse to run as root, require
the notifier binary, require the target program, then run the target and
notify with its status.  The tool's own exit status is the returned
`exit` field. -/
def main_run (euid : Nat) (fs : String → Bool)
    (exec : String → List (Option String) → Nat)
    (argv : List String) : MainResult :=
  if argv.length < 2 then
    ⟨1, ["Error: Too few arguments!"], none, none⟩
  else if euid = 0 then
    ⟨1, ["Please do not run as root."], none, none⟩
  else if fs notify_send_binloc = false then
    ⟨1, ["Error: notify-send not found!"], none, none⟩
  else if prog_exists fs (argv.getD 1 "") = false then
    ⟨1, ["Failed to execute " ++ default_bindir ++ argv.getD 1 ""], none, none⟩
  else
    let argbuf := main_argbuf argv
    let r := run_prog exec (argv.getD 1 "") argbuf
    ⟨r.1, [], some r.2, some (notify_status (Int.ofNat r.1) (argv.getD 1 ""))⟩

/-- A filesystem where every probed path exists. -/
def fsAll : String → Bool := fun _ => true

/-- A filesystem where no probed path exists. -/
def fsNone : String → Bool := fun _ => false

/-- A filesystem where everything but the notifier binary exists. -/
def fsNoNotify : String → Bool := fun p => p != notify_send_binloc

/-- A child whose raw wait status is always 0 (normal exit, code 0). -/
def execConst0 : String → List (Option String) → Nat := fun _ _ => 0

/-- A child whose raw wait status is always 768 (normal exit, code 3). -/
def execConst768 : String → List (Option String) → Nat := fun _ _ => 768

/-- C3: with `euid = 0` the tool exits 1 and launches nothing, whatever the
arguments and the filesystem. -/
theorem root_refused (fs : String → Bool)
    (exec : String → List (Option String) → Nat) (argv : List String) :
    (main_run 0 fs exec argv).exit = 1 ∧
    (main_run 0 fs exec argv).execCall = none ∧
    (main_run 0 fs exec argv).notifyCall = none := by
  unfold main_run
  by_cases h : argv.length < 2 <;> simp [h]

/-- C9: with fewer than 2 arguments the tool prints the usage error, exits 1,
and performs no child launch at all. -/
theorem too_few_args_usage_error (euid : Nat) (fs : String → Bool)
    (exec : String → List (Option String) → Nat) (argv : List String)
    (h : argv.length < 2) :
    main_run euid fs exec argv =
      ⟨1, ["Error: Too few arguments!"], none, none⟩ := by
  unfold main_run
  simp [h]

theorem too_few_args_usage_error_witness :
    main_run 1000 fsAll execConst0 ["cmdnotify"] =
      ⟨1, ["Error: Too few arguments!"], none, none⟩ :=
  too_few_args_usage_error 1000 fsAll execConst0 ["cmdnotify"] (by decide)

/-- C5: when the notifier binary is absent at its fixed path, the tool exits
1 and the target program is never launched (nor the notifier): the check is a
startup precondition. -/
theorem missing_notifier_checked_first (euid : Nat) (fs : String → Bool)
    (exec : String → List (Option String) → Nat) (argv : List String)
    (h : fs notify_send_binloc = false) :
    (main_run euid fs exec argv).exit = 1 ∧
    (main_run euid fs exec argv).execCall = none ∧
    (main_run euid fs exec argv).notifyCall = none := by
  unfold main_run
  by_cases h2 : argv.length < 2 <;> by_cases hr : euid = 0 <;> simp [h, h2, hr]

theorem missing_notifier_checked_first_witness :
    fsNoNotify notify_send_binloc = false ∧
    (main_run 1000 fsNoNotify execConst0 ["cmdnotify", "ls"]).exit = 1 ∧
    (main_run 1000 fsNoNotify execConst0 ["cmdnotify", "ls"]).execCall = none ∧
    (main_run 1000 fsNoNotify execConst0 ["cmdnotify", "ls"]).notifyCall = none :=
  ⟨by decide,
   missing_notifier_checked_first 1000 fsNoNotify execConst0
     ["cmdnotify", "ls"] (by decide)⟩

/-- C4: when no file exists at the resolved path of the target program, the
tool exits 1 and launches neither the target nor the notifier. -/
theorem missing_target_exits_one (euid : Nat) (fs : String → Bool)
    (exec : String → List (Option String) → Nat)
    (tool prog : String) (args : List String)
    (h : fs (create_progpath prog) = false) :
    (main_run euid fs exec (tool :: prog :: args)).exit = 1 ∧
    (main_run euid fs exec (tool :: prog :: args)).execCall = none ∧
    (main_run euid fs exec (tool :: prog :: args)).notifyCall = none := by
  unfold main_run
  have hget : (tool :: prog :: args).getD 1 "" = prog := rfl
  by_cases hr : euid = 0 <;>
    by_cases hn : fs notify_send_binloc = false <;>
      simp [hr, hn, hget, prog_exists, h] <;> split <;> simp

theorem missing_target_exits_one_witness :
    fsNone (create_progpath "ls") = false ∧
    (main_run 1000 fsNone execConst0 ["cmdnotify", "ls"]).exit = 1 ∧
    (main_run 1000 fsNone execConst0 ["cmdnotify", "ls"]).execCall = none ∧
    (main_run 1000 fsNone execConst0 ["cmdnotify", "ls"]).notifyCall = none :=
  ⟨by decide,
   missing_target_exits_one 1000 fsNone execConst0 "cmdnotify" "ls" []
     (by decide)⟩

/-- C8: the resolved executable path is exactly the fixed directory `"/bin/"`
followed by the program name, character for character: no validation and no
transformation of the name. -/
theorem create_progpath_is_catenation (progname : String) :
    create_progpath progname = "/bin/" ++ progname ∧
    (create_progpath progname).data =
      ['/', 'b', 'i', 'n', '/'] ++ progname.data := by
  constructor <;> rfl

/-- C6: the notification summary is the literal `"Success"` exactly when the
exit status is 0, and the literal `"Error"` exactly otherwise, for every
status and command. -/
theorem summary_success_iff_zero (status : Int) (cmd : String) :
    ((notify_status status cmd).1 = "Success" ↔ status = 0) ∧
    ((notify_status status cmd).1 = "Error" ↔ status ≠ 0) := by
  unfold notify_status SUCCESS_SUMMARY FAILURE_SUMMARY
  by_cases h : status = 0 <;> simp [h]

theorem summary_success_iff_zero_witness :
    ((notify_status 7 "ls").1 = "Success" ↔ (7 : Int) = 0) ∧
    ((notify_status 7 "ls").1 = "Error" ↔ (7 : Int) ≠ 0) :=
  summary_success_iff_zero 7 "ls"

/-- The copying loop of `main` appends each remaining argument, in order,
after the entries already in the buffer. -/
theorem argbuf_loop_spec (rest : List String) (buf : List (Option String)) :
    argbuf_loop buf rest = buf ++ rest.map some := by
  induction rest generalizing buf with
  | nil => simp [argbuf_loop]
  | cons a t ih => simp [argbuf_loop, ih]

/-- C7: whenever the tool reaches the child-process execution, the argument
vector it hands over is exactly the program name, then the remaining
command-line arguments in their original order, then the terminating NULL
entry, and nothing else. -/
theorem execv_argvec_shape (euid : Nat) (fs : String → Bool)
    (exec : String → List (Option String) → Nat)
    (tool prog : String) (args : List String)
    (p : String × List (Option String))
    (h : (main_run euid fs exec (tool :: prog :: args)).execCall = some p) :
    p.2 = some prog :: args.map some ++ [none] := by
  unfold main_run at h
  split at h
  · simp at h
  · split at h
    · simp at h
    · split at h
      · simp at h
      · split at h
        · simp at h
        · simp only [run_prog] at h
          have hp : p = (create_progpath ((tool :: prog :: args).getD 1 ""),
              main_argbuf (tool :: prog :: args)) := by
            exact (Option.some_inj.mp h).symm
          rw [hp]
          show main_argbuf (tool :: prog :: args) = _
          rw [main_argbuf, argbuf_loop_spec]
          rfl

theorem execv_argvec_shape_witness :
    (main_run 1000 fsAll execConst0 ["cmdnotify", "echo", "hi"]).execCall =
      some ("/bin/echo", [some "echo", some "hi", none]) ∧
    (("/bin/echo", ([some "echo", some "hi", none] : List (Option String))) :
        String × List (Option String)).2 =
      some "echo" :: ["hi"].map some ++ [none] :=
  ⟨by decide,
   execv_argvec_shape 1000 fsAll execConst0 "cmdnotify" "echo" ["hi"]
     ("/bin/echo", [some "echo", some "hi", none]) (by decide)⟩

/-- `WEXITSTATUS` recovers the exit code from the raw wait status of a child
that terminated normally with code `N < 256`. -/
theorem wexitstatus_of_exit (N : Nat) (hN : N < 256) :
    wexitstatus (256 * N) = N := by
  unfold wexitstatus
  rw [Nat.mul_div_cancel_left N (by norm_num : 0 < 256), Nat.mod_eq_of_lt hN]

/-- C1: when all precondition checks pass and the target terminates normally
with non-zero exit code `N`, the tool's own exit status is exactly `N`. -/
theorem exit_status_propagated (euid : Nat) (fs : String → Bool)
    (exec : String → List (Option String) → Nat)
    (tool prog : String) (args : List String) (N : Nat)
    (hroot : euid ≠ 0)
    (hns : fs notify_send_binloc = true)
    (hprog : prog_exists fs prog = true)
    (hN : N < 256) (_hN0 : N ≠ 0)
    (hexec : exec (create_progpath prog)
        (main_argbuf (tool :: prog :: args)) = 256 * N) :
    (main_run euid fs exec (tool :: prog :: args)).exit = N := by
  unfold main_run
  have h2 : ¬ ((tool :: prog :: args).length < 2) := by
    simp only [List.length_cons]
    omega
  have hget : (tool :: prog :: args).getD 1 "" = prog := rfl
  rw [if_neg h2, if_neg hroot, if_neg (by simp [hns]),
      if_neg (by simp [hget, prog_exists] at hprog ⊢; simp [hprog])]
  show (run_prog exec ((tool :: prog :: args).getD 1 "")
      (main_argbuf (tool :: prog :: args))).1 = N
  rw [hget]
  simp only [run_prog, hexec]
  exact wexitstatus_of_exit N hN

theorem exit_status_propagated_witness :
    (1000 : Nat) ≠ 0 ∧ fsAll notify_send_binloc = true ∧
    prog_exists fsAll "false" = true ∧ (3 : Nat) < 256 ∧ (3 : Nat) ≠ 0 ∧
    execConst768 (create_progpath "false")
      (main_argbuf ["cmdnotify", "false"]) = 256 * 3 ∧
    (main_run 1000 fsAll execConst768 ["cmdnotify", "false"]).exit = 3 :=
  ⟨by decide, rfl, rfl, by decide, by decide, by decide,
   exit_status_propagated 1000 fsAll execConst768 "cmdnotify" "false" [] 3
     (by decide) rfl rfl (by decide) (by decide) (by decide)⟩

/-- A 300-character command name: long enough to overflow the fixed
`snprintf` size limit of `notify_status`. -/
def cmd300 : String := String.mk (List.replicate 300 'a')

set_option maxRecDepth 10000 in
/-- C2 (failing input): for a command name of 300 characters and exit status
0, the full formatted message is 313 characters but `notify_status` hands the
notifier only its first 255 characters, so characters of the message are lost
and the body no longer contains the command text. -/
theorem notify_body_truncated :
    (notify_body_fmt 0 cmd300).length = 313 ∧
    ((notify_status 0 cmd300).2).length = 255 ∧
    (notify_status 0 cmd300).2 ≠ notify_body_fmt 0 cmd300 ∧
    ¬ List.IsInfix cmd300.data ((notify_status 0 cmd300).2).data := by
  refine ⟨by decide, by decide, ?_, ?_⟩
  · intro h
    have h1 : ((notify_status 0 cmd300).2).length = 255 := by decide
    rw [h] at h1
    have h2 : (notify_body_fmt 0 cmd300).length = 313 := by decide
    omega
  · intro h
    have hle := h.length_le
    have h1 : cmd300.data.length = 300 := by decide
    have h2 : ((notify_status 0 cmd300).2).data.length = 255 := by decide
    omega

/-- Whenever the tool notifies, the `(summary, body)` pair it hands the
notifier is `notify_status` applied to the target's exit status and to
`argv[1]` alone. -/
theorem notify_call_char (euid : Nat) (fs : String → Bool)
    (exec : String → List (Option String) → Nat) (argv : List String)
    (p : String × String)
    (h : (main_run euid fs exec argv).notifyCall = some p) :
    p = notify_status
        (Int.ofNat (wexitstatus (exec (create_progpath (argv.getD 1 ""))
          (main_argbuf argv)))) (argv.getD 1 "") := by
  unfold main_run at h
  split at h
  · simp at h
  · split at h
    · simp at h
    · split at h
      · simp at h
      · split at h
        · simp at h
        · simp only [run_prog] at h
          exact (Option.some_inj.mp h).symm

/-- C10: the notification depends only on `argv[1]` and the target's exit
status — two invocations that agree on those produce identical notifications
even if every other argument, privilege level, and filesystem differ. -/
theorem notification_noninterference (e1 e2 : Nat) (fs1 fs2 : String → Bool)
    (ex1 ex2 : String → List (Option String) → Nat)
    (argv1 argv2 : List String)
    (hprog : argv1.getD 1 "" = argv2.getD 1 "")
    (hst : wexitstatus (ex1 (create_progpath (argv1.getD 1 ""))
             (main_argbuf argv1)) =
           wexitstatus (ex2 (create_progpath (argv2.getD 1 ""))
             (main_argbuf argv2)))
    (p1 p2 : String × String)
    (h1 : (main_run e1 fs1 ex1 argv1).notifyCall = some p1)
    (h2 : (main_run e2 fs2 ex2 argv2).notifyCall = some p2) :
    p1 = p2 := by
  rw [notify_call_char e1 fs1 ex1 argv1 p1 h1,
      notify_call_char e2 fs2 ex2 argv2 p2 h2, hst, hprog]

theorem notification_noninterference_witness :
    (["cmdnotify", "ls", "-l"].getD 1 "" =
       ["cmdnotify", "ls", "-a", "-h"].getD 1 "") ∧
    (("Success", "'ls' returned 0") : String × String) =
      ("Success", "'ls' returned 0") :=
  ⟨by decide,
   notification_noninterference 1000 1001 fsAll fsAll execConst0 execConst0
     ["cmdnotify", "ls", "-l"] ["cmdnotify", "ls", "-a", "-h"]
     (by decide) (by decide)
     ("Success", "'ls' returned 0") ("Success", "'ls' returned 0")
     (by decide) (by decide)⟩
